import Mathlib

/-!
Verification development for the RogerEbert.com review crawler
(src/scrapers/scrape_roger_ebert.py and src/scrapers/scraper_utils.py).

Python strings are embedded as lists of characters (`Str`), so that every
operation is a structural recursion the kernel can evaluate on concrete
inputs.  Machine floats of the source are embedded as rationals.  Network
traffic is an oracle (`Net`) mapping a fetch counter and a URL to an
optional parsed page, so a fetch that fails or succeeds at different times
is expressible.  Python truthiness of `or` defaults is modelled explicitly
by the `pyOr*` helpers.
-/

set_option maxRecDepth 100000

/-- Python strings are modelled as lists of characters. -/
abbrev Str := List Char

/-- Whitespace class of Python regular expressions (ASCII part), used by
re.sub in ScraperUtils.clean_text and by str.strip. -/
def isPySpace (c : Char) : Bool :=
  c = ' ' || c = '\t' || c = '\n' || c = '\r' || c = '\x0b' || c = '\x0c'

/-- Boolean prefix test on character lists (str.startswith). -/
def listStartsWith : Str → Str → Bool
  | _, [] => true
  | [], _ :: _ => false
  | a :: as, b :: bs => a = b && listStartsWith as bs

/-- Split on a character predicate, keeping empty segments (like re.split). -/
def splitPred (p : Char → Bool) : Str → List Str
  | [] => [[]]
  | c :: rest =>
    let r := splitPred p rest
    if p c then [] :: r
    else
      match r with
      | h :: t => (c :: h) :: t
      | [] => [[c]]

/-- Join a list of segments with a separator (str.join). -/
def joinSep (sep : Str) : List Str → Str
  | [] => []
  | [x] => x
  | x :: y :: rest => x ++ sep ++ joinSep sep (y :: rest)

/-- Python str.strip: drop leading and trailing whitespace. -/
def pyStrip (s : Str) : Str :=
  ((s.dropWhile isPySpace).reverse.dropWhile isPySpace).reverse

/-- Lower-case one ASCII character (str.lower, ASCII fragment). -/
def charLower (c : Char) : Char :=
  if 65 ≤ c.toNat && c.toNat ≤ 90 then Char.ofNat (c.toNat + 32) else c

/-- Lower-case a string (str.lower, ASCII fragment). -/
def strLower (s : Str) : Str := s.map charLower

/-- Numeric value of an all-digit string; none when the string is empty or
holds a non-digit.  Models str.isdigit combined with int conversion. -/
def digitsVal? (s : Str) : Option Nat :=
  if s = [] || !(s.all Char.isDigit) then none
  else some (s.foldl (fun n c => 10 * n + (c.toNat - 48)) 0)

/-- UTF-8 encoding of one character, as byte values (str.encode). -/
def utf8Encode (c : Char) : List Nat :=
  let n := c.toNat
  if n < 128 then [n]
  else if n < 2048 then [192 + n / 64, 128 + n % 64]
  else if n < 65536 then [224 + n / 4096, 128 + n / 64 % 64, 128 + n % 64]
  else [240 + n / 262144, 128 + n / 4096 % 64, 128 + n / 64 % 64, 128 + n % 64]

/-- Decimal digits of a natural number (fuel-based helper). -/
def natStrAux : Nat → Nat → Str
  | 0, _ => []
  | fuel + 1, n => if n < 10 then [Nat.digitChar n] else natStrAux fuel (n / 10) ++ [Nat.digitChar (n % 10)]

/-- Decimal rendering of a natural number. -/
def natStr (n : Nat) : Str := natStrAux (n + 1) n

/-- Decimal rendering of an integer (Python str applied to an int). -/
def intStr (n : Int) : Str :=
  if n < 0 then '-' :: natStr n.natAbs else natStr n.natAbs

/-- Truncation to 32 bits. -/
def w32 (n : Nat) : Nat := n % 4294967296

/-- Left rotation of a 32-bit word. -/
def rotl (x n : Nat) : Nat := w32 (x * 2 ^ n) + x / 2 ^ (32 - n)

/-- Per-round additive constants of MD5. -/
def md5K : List Nat :=
  [0xd76aa478, 0xe8c7b756, 0x242070db, 0xc1bdceee, 0xf57c0faf, 0x4787c62a, 0xa8304613, 0xfd469501,
   0x698098d8, 0x8b44f7af, 0xffff5bb1, 0x895cd7be, 0x6b901122, 0xfd987193, 0xa679438e, 0x49b40821,
   0xf61e2562, 0xc040b340, 0x265e5a51, 0xe9b6c7aa, 0xd62f105d, 0x02441453, 0xd8a1e681, 0xe7d3fbc8,
   0x21e1cde6, 0xc33707d6, 0xf4d50d87, 0x455a14ed, 0xa9e3e905, 0xfcefa3f8, 0x676f02d9, 0x8d2a4c8a,
   0xfffa3942, 0x8771f681, 0x6d9d6122, 0xfde5380c, 0xa4beea44, 0x4bdecfa9, 0xf6bb4b60, 0xbebfbc70,
   0x289b7ec6, 0xeaa127fa, 0xd4ef3085, 0x04881d05, 0xd9d4d039, 0xe6db99e5, 0x1fa27cf8, 0xc4ac5665,
   0xf4292244, 0x432aff97, 0xab9423a7, 0xfc93a039, 0x655b59c3, 0x8f0ccc92, 0xffeff47d, 0x85845dd1,
   0x6fa87e4f, 0xfe2ce6e0, 0xa3014314, 0x4e0811a1, 0xf7537e82, 0xbd3af235, 0x2ad7d2bb, 0xeb86d391]

/-- Per-round rotation amounts of MD5. -/
def md5S : List Nat :=
  [7, 12, 17, 22, 7, 12, 17, 22, 7, 12, 17, 22, 7, 12, 17, 22,
   5, 9, 14, 20, 5, 9, 14, 20, 5, 9, 14, 20, 5, 9, 14, 20,
   4, 11, 16, 23, 4, 11, 16, 23, 4, 11, 16, 23, 4, 11, 16, 23,
   6, 10, 15, 21, 6, 10, 15, 21, 6, 10, 15, 21, 6, 10, 15, 21]

/-- Nonlinear mixing function of MD5, selected by round index. -/
def md5F (i b c d : Nat) : Nat :=
  if i < 16 then (b.land c).lor ((b.xor 4294967295).land d)
  else if i < 32 then (d.land b).lor ((d.xor 4294967295).land c)
  else if i < 48 then (b.xor c).xor d
  else c.xor (b.lor (d.xor 4294967295))

/-- Message-word index schedule of MD5. -/
def md5G (i : Nat) : Nat :=
  if i < 16 then i
  else if i < 32 then (5 * i + 1) % 16
  else if i < 48 then (3 * i + 5) % 16
  else (7 * i) % 16

/-- One of the 64 rounds of an MD5 block computation. -/
def md5Step (M : List Nat) (st : Nat × Nat × Nat × Nat) (i : Nat) : Nat × Nat × Nat × Nat :=
  let a := st.1
  let b := st.2.1
  let c := st.2.2.1
  let d := st.2.2.2
  let f := w32 (md5F i b c d + a + md5K.getD i 0 + M.getD (md5G i) 0)
  (d, w32 (b + rotl f (md5S.getD i 0)), b, c)

/-- Compression of one 16-word block into the running MD5 state. -/
def md5Block (st : Nat × Nat × Nat × Nat) (M : List Nat) : Nat × Nat × Nat × Nat :=
  let r := (List.range 64).foldl (md5Step M) st
  (w32 (st.1 + r.1), w32 (st.2.1 + r.2.1), w32 (st.2.2.1 + r.2.2.1), w32 (st.2.2.2 + r.2.2.2))

/-- Little-endian grouping of bytes into 32-bit words. -/
def leWords : List Nat → List Nat
  | b0 :: b1 :: b2 :: b3 :: rest => (b0 + 256 * b1 + 65536 * b2 + 16777216 * b3) :: leWords rest
  | _ => []

/-- Little-endian 8-byte rendering of a 64-bit length. -/
def leBytes8 (n : Nat) : List Nat :=
  [n % 256, n / 256 % 256, n / 65536 % 256, n / 16777216 % 256,
   n / 4294967296 % 256, n / 1099511627776 % 256, n / 281474976710656 % 256,
   n / 72057594037927936 % 256]

/-- MD5 padding: a 0x80 byte, zeros to 56 mod 64, then the bit length. -/
def md5Pad (msg : List Nat) : List Nat :=
  msg ++ [128] ++ List.replicate ((119 - msg.length % 64) % 64) 0 ++ leBytes8 (8 * msg.length)

/-- Fuel-based splitting of a byte list into 64-byte chunks. -/
def chunksAux : Nat → List Nat → List (List Nat)
  | 0, _ => []
  | _ + 1, [] => []
  | fuel + 1, l => l.take 64 :: chunksAux fuel (l.drop 64)

/-- Splitting of a byte list into 64-byte chunks. -/
def chunks64 (l : List Nat) : List (List Nat) := chunksAux l.length l

/-- Initial MD5 state. -/
def md5Init : Nat × Nat × Nat × Nat := (0x67452301, 0xefcdab89, 0x98badcfe, 0x10325476)

/-- Two lowercase hex characters of one byte. -/
def byteHex (b : Nat) : Str := [Nat.digitChar (b / 16), Nat.digitChar (b % 16)]

/-- Little-endian hex rendering of a 32-bit word. -/
def wordHexLE (w : Nat) : Str :=
  byteHex (w % 256) ++ byteHex (w / 256 % 256) ++ byteHex (w / 65536 % 256) ++ byteHex (w / 16777216 % 256)

/-- Hex digest of the MD5 of a byte list (hashlib.md5(...).hexdigest()). -/
def md5Bytes (msg : List Nat) : Str :=
  let r := (chunks64 (md5Pad msg)).foldl (fun st blk => md5Block st (leWords blk)) md5Init
  wordHexLE r.1 ++ wordHexLE r.2.1 ++ wordHexLE r.2.2.1 ++ wordHexLE r.2.2.2

/-- Hex digest of the MD5 of the UTF-8 encoding of a string. -/
def md5Hex (s : Str) : Str := md5Bytes (s.flatMap utf8Encode)

/-- Validation of the MD5 embedding against a published test vector. -/
example : md5Hex "abc".data = "900150983cd24fb0d6963f7d28e17f72".data := by decide

/-- ScraperUtils.clean_text: collapse whitespace runs to one space and trim.
re.sub of a whitespace run by one space followed by str.strip is the same as
splitting on whitespace, dropping empty segments and joining with spaces. -/
def clean_text (text : Str) : Str :=
  joinSep " ".data ((splitPred isPySpace text).filter (fun s => s ≠ []))

/-- ScraperUtils.extract_year helper: first match of the regular expression
(19|20)dd scanning left to right over the characters. -/
def extract_year_chars : List Char → Option Int
  | c1 :: c2 :: c3 :: c4 :: rest =>
    if (((c1 = '1' && c2 = '9') || (c1 = '2' && c2 = '0')) && c3.isDigit && c4.isDigit) then
      some (((c1.toNat - 48) * 1000 + (c2.toNat - 48) * 100 + (c3.toNat - 48) * 10 + (c4.toNat - 48) : Nat) : Int)
    else extract_year_chars (c2 :: c3 :: c4 :: rest)
  | _ => none

/-- ScraperUtils.extract_year: first 4-digit token 19xx or 20xx in the text. -/
def extract_year (text : Str) : Option Int := extract_year_chars text

/-- Round half to even on rationals, the rounding mode of Python round. -/
def roundHalfEven (x : ℚ) : ℤ :=
  let f := ⌊x⌋
  if x - f < 1 / 2 then f
  else if x - f > 1 / 2 then f + 1
  else if f % 2 = 0 then f else f + 1

/-- Python round(x, 1): round half to even at one decimal place. -/
def roundTo1 (x : ℚ) : ℚ := (roundHalfEven (x * 10) : ℚ) / 10

/-- ScraperUtils.normalize_rating: scale a rating to 0-10 and round to one
decimal; a zero original scale yields 0.0. -/
def normalize_rating (rating max_rating : ℚ) : ℚ :=
  if max_rating = 0 then 0 else roundTo1 (rating / max_rating * 10)

/-- ScraperUtils.generate_id: first 12 hex characters of the MD5 of the text,
with an underscore-joined leading tag when the tag is truthy (non-empty). -/
def generate_id (text : Str) (pref : Str) : Str :=
  let hash_hex := (md5Hex text).take 12
  if pref = [] then hash_hex else pref ++ "_".data ++ hash_hex

/-- ScraperUtils.split_list: split text on commas, strip each item and keep
the non-empty ones. -/
def split_list (text : Str) : List Str :=
  if text = [] then []
  else (splitPred (fun c => c = ',') text).foldl
    (fun acc item => let t := pyStrip item; if t ≠ [] then acc ++ [t] else acc) []

/-- Core document dictionary produced by create_movie_document. -/
structure MovieCore where
  id : Str
  title : Str
  year : Int
  site : Str
  url : Str
  rating : Option ℚ
  genres : List Str
  directors : List Str
  cast : List Str
  plot : Str
  reviews : Str
  num_reviews : Option Int
deriving DecidableEq

/-- Persisted document after RogerEbertScraper._build_document adds the
review-specific keys to the core dictionary. -/
structure Document extends MovieCore where
  critic : Option Str
  review_date : Option Str
  rating_value : Option ℚ
  rating_scale : ℚ
  summary : Str
deriving DecidableEq

/-- create_movie_document of scraper_utils: assemble the standard document,
deriving the id from the string title_year_site tagged with the site.
Optional list arguments fall back to the empty list (Python x or []). -/
def create_movie_document (title : Str) (year : Int) (site url : Str) (rating : Option ℚ)
    (genres directors cast : Option (List Str)) (plot reviews : Str)
    (num_reviews : Option Int) : MovieCore :=
  let id_text := title ++ "_".data ++ intStr year ++ "_".data ++ site
  let doc_id := generate_id id_text site
  { id := doc_id, title := title, year := year, site := site, url := url,
    rating := rating, genres := genres.getD [], directors := directors.getD [],
    cast := cast.getD [], plot := plot, reviews := reviews, num_reviews := num_reviews }

/-- Python `a or b` where both operands are strings: an empty string is falsy. -/
def pyOrStr (a b : Str) : Str := if a = [] then b else a

/-- Python `a or b` where a is an optional string and b a string: None and the
empty string are falsy. -/
def pyOrOptStr (a : Option Str) (b : Str) : Str :=
  match a with
  | some s => if s = [] then b else s
  | none => b

/-- Python `a or b` on two optional strings. -/
def pyOrOptStr2 (a b : Option Str) : Option Str :=
  match a with
  | some s => if s = [] then b else a
  | none => b

/-- Python `a or b` on two optional integers: None and 0 are falsy. -/
def pyOrOptInt2 (a b : Option Int) : Option Int :=
  match a with
  | some n => if n = 0 then b else a
  | none => b

/-- Python `a or b` where a is an optional integer and b an integer. -/
def pyOrOptInt (a : Option Int) (b : Int) : Int :=
  match a with
  | some n => if n = 0 then b else n
  | none => b

/-- Python `a or b` on two lists: an empty list is falsy. -/
def pyOrList (a b : List Str) : List Str := if a = [] then b else a

/-- ListingEntry dataclass: metadata extracted from the listing page. -/
structure ListingEntry where
  title : Str
  url : Str
  year : Option Int
  critic : Option Str
  summary : Str
deriving DecidableEq

/-- ReviewDetails dataclass: information scraped from one review page. -/
structure ReviewDetails where
  review_text : Str
  rating_value : Option ℚ
  rating_scale : ℚ
  review_date : Option Str
  critic : Option Str
  movie_year : Option Int
  movie_title : Option Str
  movie_genres : List Str
  movie_directors : List Str
  movie_cast : List Str
deriving DecidableEq

/-- One credit column under the content-lower container: its h4 heading text
(none when the column has no h4), the texts of its li a links, and the texts
of its plain li items. -/
structure CreditCol where
  heading : Option Str
  liLinkTexts : List Str
  liTexts : List Str
deriving DecidableEq

/-- Relevant content of a parsed review detail page.  Each field holds what
the corresponding CSS probe of the source would find: none models an absent
element (or, for attribute fields, an absent element or attribute), and the
string is the raw text or attribute content the probe reads.  Selector pairs
that feed one fallback expression over elements of the same shape
(h1.page-title or h1, the two deck selectors, the two date spans, the two
byline selectors, the two meta-description tags) are collapsed into a single
field holding the first match of the pair. -/
structure DetailPage where
  metaRatingContent : Option Str
  starBoxClasses : Option (List Str)
  starDataRating : Option Str
  metaDatePublished : Option Str
  ogUpdatedTime : Option Str
  dateElText : Option Str
  metaAuthorContent : Option Str
  contributorLinkText : Option Str
  authorElText : Option Str
  pageHeadingText : Option Str
  deckText : Option Str
  metaDescriptionContent : Option Str
  primaryGenreLinkTexts : Option (List Str)
  reviewInfoItems : List (Option Str × Option Str)
  creditCols : List CreditCol
  reviewBodyParas : Option (List Str)
  articleBodyParas : Option (List Str)
  entryContentParas : Option (List Str)
deriving DecidableEq

/-- Decimal fragment of Python float(): optional sign, digits with an
optional dot.  Exponent and non-finite forms are not modelled; they do not
occur in the scraped attributes. -/
def pyFloat (s : Str) : Option ℚ :=
  let t := pyStrip s
  let signed : ℚ × Str :=
    if listStartsWith t "-".data then (-1, t.drop 1)
    else if listStartsWith t "+".data then (1, t.drop 1) else (1, t)
  match splitPred (fun c => c = '.') signed.2 with
  | [w] =>
    match digitsVal? w with
    | some n => some (signed.1 * n)
    | none => none
  | [w, f] =>
    if w = [] && f = [] then none
    else
      match (if w = [] then some 0 else digitsVal? w), (if f = [] then some 0 else digitsVal? f) with
      | some a, some b => some (signed.1 * ((a : ℚ) + (b : ℚ) / (10 ^ f.length)))
      | _, _ => none
  | _ => none

/-- Value encoded by one star-box img class: star followed by digits encodes
digits divided by ten (RogerEbertScraper._extract_rating, second probe). -/
def star_class_value (cls : Str) : Option ℚ :=
  if listStartsWith cls "star".data then
    match digitsVal? (cls.drop 4) with
    | some n => some ((n : ℚ) / 10)
    | none => none
  else none

/-- First class of the star-box img that encodes a value. -/
def first_star_value : List Str → Option ℚ
  | [] => none
  | c :: rest =>
    match star_class_value c with
    | some v => some v
    | none => first_star_value rest

/-- Third rating probe: the data-rating attribute of span.star-rating; a
parse failure yields none without further probes. -/
def extract_rating_data (p : DetailPage) : Option ℚ :=
  match p.starDataRating with
  | some s => if s ≠ [] then pyFloat s else none
  | none => none

/-- Second rating probe: the star-box img classes; on no usable class the
next probe is consulted. -/
def extract_rating_star (p : DetailPage) : Option ℚ :=
  match p.starBoxClasses with
  | some classes =>
    match first_star_value classes with
    | some v => some v
    | none => extract_rating_data p
  | none => extract_rating_data p

/-- RogerEbertScraper._extract_rating: meta ratingValue tag, then star-box
img class, then data-rating attribute; a float parse failure of the meta
content falls through to the next probe. -/
def extract_rating (p : DetailPage) : Option ℚ :=
  match p.metaRatingContent with
  | some c =>
    if c ≠ [] then
      match pyFloat c with
      | some v => some v
      | none => extract_rating_star p
    else extract_rating_star p
  | none => extract_rating_star p

/-- Date fallback: og updated-time tag (date part before T), then the
visible date element cleaned. -/
def extract_review_date_og (p : DetailPage) : Option Str :=
  match p.ogUpdatedTime with
  | some c =>
    if c ≠ [] then
      some (match splitPred (fun ch => ch = 'T') c with
        | x :: _ => x
        | [] => c)
    else
      match p.dateElText with
      | some t => some (clean_text t)
      | none => none
  | none =>
    match p.dateElText with
    | some t => some (clean_text t)
    | none => none

/-- RogerEbertScraper._extract_review_date: datePublished meta tag, then og
updated-time, then the visible date element. -/
def extract_review_date (p : DetailPage) : Option Str :=
  match p.metaDatePublished with
  | some c => if c ≠ [] then some c else extract_review_date_og p
  | none => extract_review_date_og p

/-- Critic fallback: contributors profile link text, then byline element. -/
def extract_critic_link (p : DetailPage) : Option Str :=
  match p.contributorLinkText with
  | some t => some (clean_text t)
  | none =>
    match p.authorElText with
    | some t => some (clean_text t)
    | none => none

/-- RogerEbertScraper._extract_critic: author meta tag, then contributors
link, then byline element. -/
def extract_critic (p : DetailPage) : Option Str :=
  match p.metaAuthorContent with
  | some c => if c ≠ [] then some c else extract_critic_link p
  | none => extract_critic_link p

/-- RogerEbertScraper._extract_movie_title: the first page heading, cleaned;
none when the page has no heading. -/
def extract_movie_title (p : DetailPage) : Option Str :=
  match p.pageHeadingText with
  | some t => some (clean_text t)
  | none => none

/-- RogerEbertScraper._extract_summary: deck element if present (its cleaned
text, even when empty), else a truthy meta description, else empty. -/
def extract_summary (p : DetailPage) : Str :=
  match p.deckText with
  | some t => clean_text t
  | none =>
    match p.metaDescriptionContent with
    | some c => if c ≠ [] then clean_text c else []
    | none => []

/-- RogerEbertScraper._extract_genres: genre links of the primary credit
column, cleaned, deduplicated, skipping the movie reviews navigation text. -/
def extract_genres (p : DetailPage) : List Str :=
  match p.primaryGenreLinkTexts with
  | none => []
  | some links =>
    links.foldl (fun acc t =>
      let text := clean_text t
      if text ≠ [] && strLower text ≠ "movie reviews".data && !(acc.contains text)
      then acc ++ [text] else acc) []

/-- RogerEbertScraper._extract_credit_list: credit columns whose cleaned h4
heading matches a label contribute their link texts (or, with no links at
all, their plain item texts), cleaned, non-empty only. -/
def extract_credit_list (cols : List CreditCol) (labels : List Str) : List Str :=
  let label_set := labels.map strLower
  cols.foldl (fun values col =>
    match col.heading with
    | none => values
    | some h =>
      if !(label_set.contains (strLower (clean_text h))) then values
      else if col.liLinkTexts ≠ [] then
        values ++ col.liLinkTexts.foldl (fun vs t => let c := clean_text t; if c ≠ [] then vs ++ [c] else vs) []
      else
        values ++ col.liTexts.foldl (fun vs t => let c := clean_text t; if c ≠ [] then vs ++ [c] else vs) []) []

/-- RogerEbertScraper._extract_metadata_list: review-info label/value pairs
whose cleaned label matches contribute their comma-split values; when none
match, fall back to the credit columns. -/
def extract_metadata_list (p : DetailPage) (labels : List Str) : List Str :=
  let label_set := labels.map strLower
  let values := p.reviewInfoItems.foldl (fun vs item =>
    match item.1, item.2 with
    | some label, some value =>
      if label_set.contains (strLower (clean_text label)) then vs ++ split_list value else vs
    | _, _ => vs) []
  if values ≠ [] then values else extract_credit_list p.creditCols labels

/-- RogerEbertScraper._extract_review_body: paragraphs of the first matching
content container (review__body, article-body, entry-content, in that
order), non-empty only, joined by single spaces; empty when no container
matches. -/
def extract_review_body (p : DetailPage) : Str :=
  match p.reviewBodyParas <|> p.articleBodyParas <|> p.entryContentParas with
  | none => []
  | some paras => joinSep " ".data (paras.filter (fun s => s ≠ []))

/-- Extraction part of RogerEbertScraper._fetch_review, applied to a
successfully fetched detail page: run every field probe and assemble the
ReviewDetails, falling back from an empty review body to the summary.  The
rating_scale keeps the dataclass default 4.0, which the source never
overrides. -/
def fetch_review_page (p : DetailPage) : ReviewDetails :=
  let rating_value := extract_rating p
  let review_date := extract_review_date p
  let critic := extract_critic p
  let movie_title := extract_movie_title p
  let movie_year : Option Int :=
    match movie_title with
    | some t => if t ≠ [] then extract_year t else none
    | none => none
  let summary := extract_summary p
  let genres := pyOrList (extract_genres p) (extract_metadata_list p ["Genre".data, "Genres".data])
  let directors := extract_metadata_list p ["Directed by".data, "Director".data]
  let cast := extract_credit_list p.creditCols ["Cast".data]
  let review_text := extract_review_body p
  { review_text := pyOrStr review_text summary,
    rating_value := rating_value,
    rating_scale := 4,
    review_date := review_date,
    critic := critic,
    movie_year := movie_year,
    movie_title := movie_title,
    movie_genres := genres,
    movie_directors := directors,
    movie_cast := cast }

/-- RogerEbertScraper._build_document: merge one listing entry with the
details of its review page into the persisted document.  Titles and years
merge by Python or, the normalized rating is computed only when a raw
rating is present, and the review-specific keys are then added. -/
def build_document (entry : ListingEntry) (details : ReviewDetails) : Document :=
  let rating_normalized : Option ℚ :=
    match details.rating_value with
    | some v => some (normalize_rating v details.rating_scale)
    | none => none
  let title := pyOrOptStr details.movie_title entry.title
  let year : Option Int := pyOrOptInt2 details.movie_year entry.year
  let core := create_movie_document title (pyOrOptInt year 0) "rogerebert".data entry.url
    rating_normalized (some details.movie_genres) (some details.movie_directors)
    (some details.movie_cast) (pyOrStr entry.summary details.review_text)
    details.review_text none
  { toMovieCore := core,
    critic := pyOrOptStr2 details.critic entry.critic,
    review_date := details.review_date,
    rating_value := details.rating_value,
    rating_scale := details.rating_scale,
    summary := entry.summary }

/-- Site root of the crawler. -/
def BASE_URL : Str := "https://www.rogerebert.com".data

/-- Fixed entry listing URLs of the crawler. -/
def START_LISTING_URLS : List Str :=
  ["https://www.rogerebert.com/".data, "https://www.rogerebert.com/reviews".data]

/-- Split an absolute URL at the first scheme separator into the scheme and
the remainder; none for a URL with no scheme separator. -/
def splitSchemeAux : Str → Option (Str × Str)
  | [] => none
  | c :: rest =>
    if listStartsWith (c :: rest) "://".data then some ([], (c :: rest).drop 3)
    else
      match splitSchemeAux rest with
      | some pq => some (c :: pq.1, pq.2)
      | none => none

/-- Scheme and network location of a URL, the origin in the sense of
urllib.parse (scheme plus host); empty for a relative reference. -/
def urlOrigin (u : Str) : Str :=
  match splitSchemeAux u with
  | some pq => pq.1 ++ "://".data ++ pq.2.takeWhile (fun c => c ≠ '/' && c ≠ '?' && c ≠ '#')
  | none => []

/-- Path component of a URL in the sense of urllib.parse.urlparse, for the
absolute and relative forms the crawler handles. -/
def urlPath (u : Str) : Str :=
  match splitSchemeAux u with
  | some pq =>
    (pq.2.dropWhile (fun c => c ≠ '/' && c ≠ '?' && c ≠ '#')).takeWhile (fun c => c ≠ '?' && c ≠ '#')
  | none => u.takeWhile (fun c => c ≠ '?' && c ≠ '#')

/-- urllib.parse.urljoin restricted to the shapes the crawler meets: an
absolute href is kept, a root-relative href is joined to the base origin,
and any other relative href is joined below the base origin root. -/
def urljoin (base href : Str) : Str :=
  if (splitSchemeAux href).isSome then href
  else if listStartsWith href "/".data then urlOrigin base ++ href
  else urlOrigin base ++ "/".data ++ href

/-- RogerEbertScraper._looks_like_review: the URL path starts with the
reviews prefix and holds at least two hyphens. -/
def looks_like_review (url : Str) : Bool :=
  listStartsWith (urlPath url) "/reviews/".data && 2 ≤ (urlPath url).count '-'

/-- One anchor matched by the listing selector for review hrefs: its href
attribute (none when absent), its own text, and the text of the teaser
element that _extract_summary_near_link finds near it (none when the anchor
has no parent container or the container has no teaser or paragraph). -/
structure Anchor where
  href : Option Str
  text : Str
  nearTeaser : Option Str
deriving DecidableEq

/-- Parsed listing page: the anchors matched by the review-href selector in
document order, and the pagination probes.  Each pagination field is the
element found by its probe (outer Option) together with its href attribute
(inner Option): headNext is the head link rel next tag, relNext the anchor
rel next or, when that anchor is missing, the pagination-next anchor, and
loadMore the anchor whose text holds More Reviews. -/
structure ListingSoup where
  anchors : List Anchor
  headNext : Option (Option Str)
  relNext : Option (Option Str)
  loadMore : Option (Option Str)
deriving DecidableEq

/-- Insertion into a collected URL set, first occurrence kept, modelling
set.add with insertion order. -/
def addUrl (urls : List Str) (u : Str) : List Str :=
  if urls.contains u then urls else urls ++ [u]

/-- RogerEbertScraper._extract_next_listing_urls: union of the three
pagination probes, each contributing its href resolved against the current
URL when the element and a truthy href are present, filtered to URLs that
start with the literal site root string. -/
def extract_next_listing_urls (soup : ListingSoup) (currentUrl : Str) : List Str :=
  let urls : List Str := []
  let urls :=
    match soup.headNext with
    | some (some h) => if h ≠ [] then addUrl urls (urljoin currentUrl h) else urls
    | _ => urls
  let urls :=
    match soup.relNext with
    | some (some h) => if h ≠ [] then addUrl urls (urljoin currentUrl h) else urls
    | _ => urls
  let urls :=
    match soup.loadMore with
    | some (some h) => if h ≠ [] then addUrl urls (urljoin currentUrl h) else urls
    | _ => urls
  urls.filter (fun u => listStartsWith u BASE_URL)

/-- RogerEbertScraper._extract_summary_near_link: cleaned text of the teaser
found near the anchor, empty when nothing is found. -/
def extract_summary_near_link (a : Anchor) : Str :=
  match a.nearTeaser with
  | some t => clean_text t
  | none => []

/-- Candidate-entry part of RogerEbertScraper._parse_listing: walk the
matched anchors, resolve each truthy href against the site root, keep those
that look like reviews, collapse per-page duplicates by resolved URL, build
the entry (cleaned title with a placeholder fallback, nearby teaser, year
from title then teaser) and stop after 50 entries. -/
def parse_entries : List Anchor → List ListingEntry → List Str → List ListingEntry
  | [], acc, _ => acc
  | a :: rest, acc, seenUrls =>
    match a.href with
    | none => parse_entries rest acc seenUrls
    | some href =>
      if href = [] then parse_entries rest acc seenUrls
      else
        let review_url := urljoin BASE_URL href
        if !(looks_like_review review_url) then parse_entries rest acc seenUrls
        else if seenUrls.contains review_url then parse_entries rest acc seenUrls
        else
          let title := pyOrStr (clean_text a.text) "Untitled Review".data
          let summary := extract_summary_near_link a
          let year := pyOrOptInt2 (extract_year title) (extract_year summary)
          let acc := acc ++ [ListingEntry.mk title review_url year none summary]
          if 50 ≤ acc.length then acc
          else parse_entries rest acc (seenUrls ++ [review_url])

/-- RogerEbertScraper._parse_listing: candidate entries and the next listing
URLs discovered on the page. -/
def parse_listing (soup : ListingSoup) (sourceUrl : Str) : List ListingEntry × List Str :=
  (parse_entries soup.anchors [] [], extract_next_listing_urls soup sourceUrl)

/-- Network oracle: what each fetch returns, indexed by a running fetch
counter and the URL, so a URL may fail on one attempt and succeed on a
later one.  none models any fetch failure (_get_soup returning None). -/
structure Net where
  listing : Nat → Str → Option ListingSoup
  detail : Nat → Str → Option DetailPage

/-- Mutable session state of RogerEbertScraper.crawl, made explicit: the
listing queue, the seen review URL set, the accumulated documents, the
count of newly collected documents, the snapshots written by save, the
collected-count at the latest write (bookkeeping for the checkpoint
analysis), the log of listing URLs fetched, and the fetch counter. -/
structure CrawlState where
  queue : List Str
  seen : List Str
  documents : List Document
  collected : Nat
  writes : List (List Document)
  lastSave : Nat
  fetchLog : List Str
  tick : Nat

/-- RogerEbertScraper.save: skip when no documents are accumulated,
otherwise rewrite the full document list as one snapshot. -/
def save_state (st : CrawlState) : CrawlState :=
  if st.documents = [] then st
  else { st with writes := st.writes ++ [st.documents], lastSave := st.collected }

/-- Inner loop of RogerEbertScraper.crawl over the entries of one listing
page: stop at the limit, skip entries whose URL was seen, fetch the detail
page (counted, may fail), build and append the document, mark the URL seen,
and save every tenth newly collected document. -/
def processEntries (net : Net) (limit : Nat) : List ListingEntry → CrawlState → CrawlState
  | [], st => st
  | e :: rest, st =>
    if limit ≤ st.collected then st
    else if st.seen.contains e.url then processEntries net limit rest st
    else
      match net.detail st.tick e.url with
      | none => processEntries net limit rest { st with tick := st.tick + 1 }
      | some page =>
        let details := fetch_review_page page
        let doc := build_document e details
        let st' : CrawlState :=
          { st with
            tick := st.tick + 1,
            documents := st.documents ++ [doc],
            seen := st.seen ++ [e.url],
            collected := st.collected + 1 }
        let st' := if (st.collected + 1) % 10 = 0 then save_state st' else st'
        processEntries net limit rest st'

/-- Enqueue discovered listing URLs that are not already queued (the only
dedup the source applies to the frontier). -/
def enqueueNew (queue : List Str) (urls : List Str) : List Str :=
  urls.foldl (fun q u => if q.contains u then q else q ++ [u]) queue

/-- Outer loop of RogerEbertScraper.crawl, with explicit fuel bounding the
number of listing iterations: while the queue is non-empty and the limit is
not reached, pop the head URL, fetch it (counted, may fail), enqueue the
discovered next listing URLs, and process the candidate entries. -/
def crawl_loop (net : Net) (limit : Nat) : Nat → CrawlState → CrawlState
  | 0, st => st
  | fuel + 1, st =>
    match st.queue with
    | [] => st
    | url :: rest =>
      if limit ≤ st.collected then st
      else
        let st1 : CrawlState :=
          { st with queue := rest, fetchLog := st.fetchLog ++ [url], tick := st.tick + 1 }
        match net.listing st.tick url with
        | none => crawl_loop net limit fuel st1
        | some soup =>
          let parsed := parse_listing soup url
          let st2 := { st1 with queue := enqueueNew st1.queue parsed.2 }
          let st3 := processEntries net limit parsed.1 st2
          crawl_loop net limit fuel st3

/-- URL of an explicit listing page offset. -/
def pageUrl (n : Nat) : Str := "https://www.rogerebert.com/reviews/page/".data ++ natStr n

/-- RogerEbertScraper.crawl: seed the seen set from the URL of every loaded
document and the documents list from the loaded checkpoint, build the start
queue from the optional page offset and the fixed entry URLs (skipping ones
already queued), and run the listing loop.  A missing or corrupt checkpoint
is the empty loaded list. -/
def crawl (net : Net) (loadedDocs : List Document) (limit startPage fuel : Nat) : CrawlState :=
  let q0 : List Str := if 1 < startPage then [pageUrl startPage] else []
  let q1 := enqueueNew q0 START_LISTING_URLS
  crawl_loop net limit fuel
    { queue := q1,
      seen := loadedDocs.map (fun d => d.url),
      documents := loadedDocs,
      collected := 0,
      writes := [],
      lastSave := 0,
      fetchLog := [],
      tick := 0 }

/-- Entry point main of the scraper: one crawl followed by one final save. -/
def main_run (net : Net) (loadedDocs : List Document) (limit startPage fuel : Nat) : CrawlState :=
  save_state (crawl net loadedDocs limit startPage fuel)

/-- Home page URL, one of the fixed entry listing URLs. -/
def homeUrl : Str := "https://www.rogerebert.com/".data

/-- Reviews listing URL, the other fixed entry listing URL. -/
def reviewsUrl : Str := "https://www.rogerebert.com/reviews".data

/-- Second listing page URL, discovered during the concrete runs below. -/
def page2Url : Str := "https://www.rogerebert.com/reviews/page/2".data

/-- Listing page with no candidate anchors and one load-more link. -/
def soupWithMore (h : Str) : ListingSoup := ⟨[], none, none, some (some h)⟩

/-- Network with a two-page listing cycle: the home page advertises page 2
as its next listing page and page 2 advertises the home page; every other
fetch fails. -/
def netC2 : Net :=
  ⟨fun _ u =>
    if u = homeUrl then some (soupWithMore page2Url)
    else if u = page2Url then some (soupWithMore homeUrl) else none,
   fun _ _ => none⟩

/-- Network on which every fetch fails. -/
def netNone : Net := ⟨fun _ _ => none, fun _ _ => none⟩

/-- Absolute URL on a foreign host whose text starts with the site root
string. -/
def evilUrl : Str := "https://www.rogerebert.com.evil.example/reviews/a-b-c".data

/-- Listing page advertising the foreign-host URL as its load-more link. -/
def soupC7 : ListingSoup := ⟨[], none, none, some (some evilUrl)⟩

/-- Listing page advertising one root-relative next link. -/
def soupW7 : ListingSoup := ⟨[], some (some "/reviews/page/3".data), none, none⟩

/-- Listing entry whose review page reports a present but empty title. -/
def entryC6 : ListingEntry :=
  ⟨"Listing Title".data, "https://www.rogerebert.com/reviews/listing-title-2020".data,
   none, none, []⟩

/-- Review details with a present but empty movie title (a heading element
whose text is all whitespace yields exactly this). -/
def detailsC6 : ReviewDetails := ⟨[], none, 4, none, none, none, some [], [], [], []⟩

/-- Listing entry used by the merge-rule witness. -/
def entryW6 : ListingEntry :=
  ⟨"Listing Title".data, "https://www.rogerebert.com/reviews/listing-title-2020".data,
   some 2020, none, []⟩

/-- Review details reporting a non-empty title and a nonzero year. -/
def detailsW6 : ReviewDetails :=
  ⟨[], none, 4, none, none, some 2021, some "Detail Title".data, [], [], []⟩

/-- Review detail page with no review-body container, no deck, and a meta
description. -/
def pageC8 : DetailPage :=
  ⟨none, none, none, none, none, none, none, none, none, none, none,
   some "A plot summary.".data, none, [], [], none, none, none⟩

/-- Review detail page whose review-body container holds two non-empty
paragraphs and one empty one. -/
def pageW8 : DetailPage :=
  ⟨none, none, none, none, none, none, none, none, none, none, none, none, none, [], [],
   some ["Para one.".data, [], "Para two.".data], none, none⟩

/-- Listing entry used by the rating and year witnesses. -/
def entryW3 : ListingEntry :=
  ⟨"Some Film".data, "https://www.rogerebert.com/reviews/some-film-2019".data, none, none, []⟩

/-- Review details carrying a present raw rating on the default scale. -/
def detailsW3 : ReviewDetails :=
  ⟨[], some (7 / 2), 4, none, none, none, none, [], [], []⟩

/-- Review details with no year anywhere. -/
def detailsW10 : ReviewDetails :=
  ⟨[], none, 4, none, none, none, some "Some Film".data, [], [], []⟩

/-- URLs of a document list, the material of the seen-URL set. -/
def urlsOf (docs : List Document) : List Str := docs.map (fun d => d.url)

/-- Session dedup invariant: the seeded URLs stay in the seen set, the
accumulated documents are the loaded ones followed by the new ones, every
new document has a seen URL outside the seed, and the new documents carry
pairwise distinct URLs. -/
def C1Inv (docs0 : List Document) (st : CrawlState) : Prop :=
  (∀ u ∈ urlsOf docs0, u ∈ st.seen) ∧
  ∃ tail, st.documents = docs0 ++ tail ∧
    (∀ d ∈ tail, d.url ∈ st.seen ∧ d.url ∉ urlsOf docs0) ∧
    tail.Pairwise (fun a b => a.url ≠ b.url)

/-- Checkpoint invariant: the latest save happened at a batch boundary, at
most nine newly collected documents are unsaved, the document count tracks
the collected count over the loaded baseline, and the latest written
snapshot is exactly the documents accumulated up to the latest save. -/
def SaveInv (n0 : Nat) (st : CrawlState) : Prop :=
  st.lastSave % 10 = 0 ∧ st.lastSave ≤ st.collected ∧ st.collected - st.lastSave ≤ 9 ∧
  st.documents.length = n0 + st.collected ∧
  (st.lastSave = 0 ∨ st.writes.getLast? = some (st.documents.take (n0 + st.lastSave)))

theorem build_document_url (e : ListingEntry) (d : ReviewDetails) :
    (build_document e d).url = e.url := rfl

/-- C3: a built document carries the rounded scaled rating exactly when the
extracted raw rating is present, and no rating at all otherwise. -/
theorem c3_rating_normalization (e : ListingEntry) (d : ReviewDetails)
    (h : d.rating_scale ≠ 0) :
    (build_document e d).rating =
      match d.rating_value with
      | some v => some (roundTo1 (v / d.rating_scale * 10))
      | none => none := by
  cases hv : d.rating_value with
  | none => simp [build_document, create_movie_document, hv]
  | some v => simp [build_document, create_movie_document, hv, normalize_rating, h]

/-- Witness for c3_rating_normalization at a concrete entry and details. -/
theorem c3_witness :
    detailsW3.rating_scale ≠ 0 ∧
      (build_document entryW3 detailsW3).rating = some (roundTo1 (7 / 2 / 4 * 10)) :=
  ⟨by norm_num [detailsW3], c3_rating_normalization entryW3 detailsW3 (by norm_num [detailsW3])⟩

/-- C4: rating normalization is invariant under a uniform positive rescaling
of the raw value and the scale. -/
theorem c4_scale_invariance (r s k : ℚ) (hs : 0 < s) (hk : 0 < k) :
    normalize_rating r s = normalize_rating (r * k) (s * k) := by
  have hs' : s ≠ 0 := ne_of_gt hs
  have hsk : s * k ≠ 0 := mul_ne_zero hs' (ne_of_gt hk)
  unfold normalize_rating
  rw [if_neg hs', if_neg hsk, mul_div_mul_right r s (ne_of_gt hk)]

/-- Witness for c4_scale_invariance at concrete values. -/
theorem c4_witness :
    (0 : ℚ) < 4 ∧ (0 : ℚ) < 2 ∧ normalize_rating 3 4 = normalize_rating (3 * 2) (4 * 2) :=
  ⟨by norm_num, by norm_num, c4_scale_invariance 3 4 2 (by norm_num) (by norm_num)⟩

/-- C5: the document id is the site tag, an underscore, and the first 12 hex
characters of the MD5 of the string title_year_site, and it does not depend
on any other argument of create_movie_document. -/
theorem c5_id_deterministic (title : Str) (year : Int) (site url url2 : Str)
    (r r2 : Option ℚ) (g g2 dr dr2 c c2 : Option (List Str)) (p p2 rv rv2 : Str)
    (n n2 : Option Int) (hsite : site ≠ []) :
    (create_movie_document title year site url r g dr c p rv n).id =
        site ++ "_".data ++ (md5Hex (title ++ "_".data ++ intStr year ++ "_".data ++ site)).take 12 ∧
    (create_movie_document title year site url r g dr c p rv n).id =
        (create_movie_document title year site url2 r2 g2 dr2 c2 p2 rv2 n2).id := by
  constructor
  · simp [create_movie_document, generate_id, hsite]
  · rfl

/-- Witness for c5_id_deterministic at a concrete title, year and site. -/
theorem c5_witness :
    ("rogerebert".data : Str) ≠ [] ∧
      (create_movie_document ("Up".data) 2009 ("rogerebert".data) ("u".data) none none none
          none [] [] none).id =
        "rogerebert".data ++ "_".data ++
          (md5Hex ("Up".data ++ "_".data ++ intStr 2009 ++ "_".data ++ "rogerebert".data)).take 12 :=
  ⟨by decide,
   (c5_id_deterministic ("Up".data) 2009 ("rogerebert".data) ("u".data) ("v".data) none none
      none none none none none none [] [] [] [] none none (by decide)).1⟩

/-- C6 counterexample: a detail page providing a present but empty title
loses to the listing title, so the detail value is not always carried. -/
theorem c6_counterexample :
    detailsC6.movie_title = some [] ∧
      (build_document entryC6 detailsC6).title = "Listing Title".data :=
  ⟨rfl, rfl⟩

/-- C6 amended: the detail title wins only when present and non-empty, the
detail year only when present and nonzero; otherwise the listing value is
used, and a missing year everywhere becomes 0. -/
theorem c6_amended_merge (e : ListingEntry) (d : ReviewDetails) :
    (∀ t, d.movie_title = some t → t ≠ [] → (build_document e d).title = t) ∧
    (d.movie_title = none → (build_document e d).title = e.title) ∧
    (d.movie_title = some [] → (build_document e d).title = e.title) ∧
    (∀ y, d.movie_year = some y → y ≠ 0 → (build_document e d).year = y) ∧
    (d.movie_year = none → ∀ z, e.year = some z → z ≠ 0 → (build_document e d).year = z) ∧
    (d.movie_year = none → e.year = none → (build_document e d).year = 0) := by
  refine ⟨fun t ht hne => ?_, fun h => ?_, fun h => ?_, fun y hy hne => ?_,
    fun h z hz hne => ?_, fun h h2 => ?_⟩ <;>
    simp [build_document, create_movie_document, pyOrOptStr, pyOrOptInt2, pyOrOptInt, *]

/-- Witness for c6_amended_merge at concrete entries and details. -/
theorem c6_witness :
    (build_document entryW6 detailsW6).title = "Detail Title".data ∧
      (build_document entryW6 detailsW6).year = 2021 :=
  ⟨(c6_amended_merge entryW6 detailsW6).1 ("Detail Title".data) rfl (by decide),
   (c6_amended_merge entryW6 detailsW6).2.2.2.1 2021 rfl (by decide)⟩

/-- C7 counterexample: the load-more link to a foreign host surviving the
prefix filter, although its origin differs from the site origin. -/
theorem c7_counterexample :
    evilUrl ∈ extract_next_listing_urls soupC7 reviewsUrl ∧
      urlOrigin evilUrl ≠ urlOrigin BASE_URL := by
  constructor <;> decide

/-- C7 amended: every URL returned by pagination discovery starts with the
literal site-root string (which does not imply an equal origin). -/
theorem c7_amended_prefix_filter (soup : ListingSoup) (currentUrl u : Str)
    (h : u ∈ extract_next_listing_urls soup currentUrl) :
    listStartsWith u BASE_URL = true := by
  unfold extract_next_listing_urls at h
  exact (List.mem_filter.mp h).2

/-- Witness for c7_amended_prefix_filter at a concrete page. -/
theorem c7_witness :
    listStartsWith ("https://www.rogerebert.com/reviews/page/3".data) BASE_URL = true :=
  c7_amended_prefix_filter soupW7 reviewsUrl
    ("https://www.rogerebert.com/reviews/page/3".data) (by decide)

/-- C8 counterexample: with no matching content container the review text is
the extracted summary, not the empty string. -/
theorem c8_counterexample :
    extract_review_body pageC8 = [] ∧
      (fetch_review_page pageC8).review_text = "A plot summary.".data :=
  ⟨rfl, rfl⟩

/-- C8 amended: the review text is the single-space join of the non-empty
paragraphs of the first matching container when that join is non-empty, and
the extracted summary when no container matches or the join is empty. -/
theorem c8_amended_body (p : DetailPage) :
    (∀ paras, (p.reviewBodyParas <|> p.articleBodyParas <|> p.entryContentParas) = some paras →
        joinSep " ".data (paras.filter (fun s => s ≠ [])) ≠ [] →
        (fetch_review_page p).review_text = joinSep " ".data (paras.filter (fun s => s ≠ []))) ∧
    ((p.reviewBodyParas <|> p.articleBodyParas <|> p.entryContentParas) = none →
        (fetch_review_page p).review_text = extract_summary p) ∧
    (∀ paras, (p.reviewBodyParas <|> p.articleBodyParas <|> p.entryContentParas) = some paras →
        joinSep " ".data (paras.filter (fun s => s ≠ [])) = [] →
        (fetch_review_page p).review_text = extract_summary p) := by
  refine ⟨fun paras hp hne => ?_, fun hp => ?_, fun paras hp he => ?_⟩
  · have hne' : joinSep " ".data (List.filter (fun s => !decide (s = [])) paras) ≠ [] := by
      simpa using hne
    simp [fetch_review_page, extract_review_body, pyOrStr, hp, hne']
  · simp [fetch_review_page, extract_review_body, pyOrStr, hp]
  · have he' : joinSep " ".data (List.filter (fun s => !decide (s = [])) paras) = [] := by
      simpa using he
    simp [fetch_review_page, extract_review_body, pyOrStr, hp, he']

/-- Witness for c8_amended_body at a concrete page with two non-empty
paragraphs. -/
theorem c8_witness :
    (fetch_review_page pageW8).review_text = "Para one. Para two.".data :=
  (c8_amended_body pageW8).1 (["Para one.".data, [], "Para two.".data]) rfl (by decide)

/-- C10: with no year from the detail page or the listing entry, the built
document carries year 0, its id hashes the string title_0_rogerebert, and
any two such documents with the same merged title share the id. -/
theorem c10_yearless_documents (e : ListingEntry) (d : ReviewDetails)
    (hd : d.movie_year = none) (he : e.year = none) :
    (build_document e d).year = 0 ∧
    (build_document e d).id =
      "rogerebert".data ++ "_".data ++
        (md5Hex (pyOrOptStr d.movie_title e.title ++ "_".data ++ intStr 0 ++ "_".data ++
          "rogerebert".data)).take 12 ∧
    (∀ e2 d2, d2.movie_year = none → e2.year = none →
      pyOrOptStr d2.movie_title e2.title = pyOrOptStr d.movie_title e.title →
      (build_document e2 d2).id = (build_document e d).id) := by
  refine ⟨?_, ?_, ?_⟩
  · simp [build_document, create_movie_document, pyOrOptInt2, pyOrOptInt, hd, he]
  · simp [build_document, create_movie_document, generate_id, pyOrOptInt2, pyOrOptInt, hd, he]
  · intro e2 d2 hd2 he2 hteq
    simp [build_document, create_movie_document, generate_id, pyOrOptInt2, pyOrOptInt,
      hd, he, hd2, he2, hteq]

/-- Witness for c10_yearless_documents at a concrete entry and details. -/
theorem c10_witness :
    (build_document entryW3 detailsW10).year = 0 ∧
      (build_document entryW3 detailsW10).id =
        "rogerebert".data ++ "_".data ++
          (md5Hex (pyOrOptStr detailsW10.movie_title entryW3.title ++ "_".data ++ intStr 0 ++
            "_".data ++ "rogerebert".data)).take 12 :=
  ⟨(c10_yearless_documents entryW3 detailsW10 rfl rfl).1,
   (c10_yearless_documents entryW3 detailsW10 rfl rfl).2.1⟩

theorem save_state_queue (st : CrawlState) : (save_state st).queue = st.queue := by
  unfold save_state; split <;> rfl

theorem save_state_seen (st : CrawlState) : (save_state st).seen = st.seen := by
  unfold save_state; split <;> rfl

theorem save_state_documents (st : CrawlState) : (save_state st).documents = st.documents := by
  unfold save_state; split <;> rfl

theorem c1_inv_accept (docs0 : List Document) (st : CrawlState) (e : ListingEntry)
    (d : ReviewDetails) (hns : ¬ st.seen.contains e.url = true) (h : C1Inv docs0 st) :
    C1Inv docs0
      { st with
        tick := st.tick + 1,
        documents := st.documents ++ [build_document e d],
        seen := st.seen ++ [e.url],
        collected := st.collected + 1 } := by
  obtain ⟨hseed, tail, hdocs, htail, hpw⟩ := h
  have hnotmem : e.url ∉ st.seen := by simpa using hns
  refine ⟨?_, tail ++ [build_document e d], ?_, ?_, ?_⟩
  · intro u hu
    exact List.mem_append_left _ (hseed u hu)
  · simp [hdocs]
  · intro d' hd'
    rcases List.mem_append.mp hd' with h1 | h2
    · exact ⟨List.mem_append_left _ (htail d' h1).1, (htail d' h1).2⟩
    · have hde : d' = build_document e d := by simpa using h2
      subst hde
      refine ⟨?_, ?_⟩
      · rw [build_document_url]
        exact List.mem_append_right _ (by simp)
      · rw [build_document_url]
        intro hcon
        exact hnotmem (hseed _ hcon)
  · rw [List.pairwise_append]
    refine ⟨hpw, List.pairwise_singleton _ _, ?_⟩
    intro a ha b hb
    have hb' : b = build_document e d := by simpa using hb
    subst hb'
    rw [build_document_url]
    intro heq
    exact hnotmem (heq ▸ (htail a ha).1)

theorem c1_inv_save (docs0 : List Document) (st : CrawlState) (h : C1Inv docs0 st) :
    C1Inv docs0 (save_state st) := by
  unfold save_state
  split
  · exact h
  · obtain ⟨hseed, tail, hdocs, htail, hpw⟩ := h
    exact ⟨hseed, tail, hdocs, htail, hpw⟩

theorem processEntries_c1 (net : Net) (limit : Nat) (docs0 : List Document)
    (es : List ListingEntry) : ∀ st : CrawlState, C1Inv docs0 st →
    C1Inv docs0 (processEntries net limit es st) := by
  induction es with
  | nil => intro st h; exact h
  | cons e rest ih =>
    intro st h
    simp only [processEntries]
    split
    · exact h
    · split
      · exact ih st h
      · cases hd : net.detail st.tick e.url with
        | none =>
          apply ih
          obtain ⟨hseed, tail, hdocs, htail, hpw⟩ := h
          exact ⟨hseed, tail, hdocs, htail, hpw⟩
        | some page =>
          apply ih
          split
          · exact c1_inv_save docs0 _ (c1_inv_accept docs0 st e (fetch_review_page page) (by assumption) h)
          · exact c1_inv_accept docs0 st e (fetch_review_page page) (by assumption) h

theorem crawl_loop_c1 (net : Net) (limit : Nat) (docs0 : List Document) :
    ∀ fuel : Nat, ∀ st : CrawlState, C1Inv docs0 st →
      C1Inv docs0 (crawl_loop net limit fuel st) := by
  intro fuel
  induction fuel with
  | zero => intro st h; exact h
  | succ fuel ih =>
    intro st h
    simp only [crawl_loop]
    split
    · exact h
    · split
      · exact h
      · split
        · apply ih
          obtain ⟨hseed, tail, hdocs, htail, hpw⟩ := h
          exact ⟨hseed, tail, hdocs, htail, hpw⟩
        · apply ih
          apply processEntries_c1
          obtain ⟨hseed, tail, hdocs, htail, hpw⟩ := h
          exact ⟨hseed, tail, hdocs, htail, hpw⟩

/-- C1: within one session no document is appended whose URL was seeded from
the loaded checkpoint, and the newly appended documents carry pairwise
distinct URLs. -/
theorem c1_session_dedup (net : Net) (loaded : List Document) (limit startPage fuel : Nat) :
    ∃ tail, (crawl net loaded limit startPage fuel).documents = loaded ++ tail ∧
      (∀ d ∈ tail, d.url ∉ urlsOf loaded) ∧
      tail.Pairwise (fun a b => a.url ≠ b.url) := by
  have h := crawl_loop_c1 net limit loaded fuel
    { queue := enqueueNew (if 1 < startPage then [pageUrl startPage] else []) START_LISTING_URLS,
      seen := loaded.map (fun d => d.url), documents := loaded, collected := 0,
      writes := [], lastSave := 0, fetchLog := [], tick := 0 }
    ⟨fun _ hu => hu, [], by simp, by simp, List.Pairwise.nil⟩
  obtain ⟨hseed, tail, hdocs, htail, hpw⟩ := h
  exact ⟨tail, hdocs, fun d hd => (htail d hd).2, hpw⟩

/-- Witness for c1_session_dedup at a concrete run. -/
theorem c1_witness :
    ∃ tail, (crawl netNone [] 5 1 3).documents = [] ++ tail ∧
      (∀ d ∈ tail, d.url ∉ urlsOf []) ∧
      tail.Pairwise (fun a b => a.url ≠ b.url) :=
  c1_session_dedup netNone [] 5 1 3

theorem enqueueNew_nodup (l : List Str) : ∀ q : List Str, q.Nodup → (enqueueNew q l).Nodup := by
  induction l with
  | nil => intro q h; exact h
  | cons u rest ih =>
    intro q h
    simp only [enqueueNew, List.foldl_cons]
    by_cases hm : u ∈ q
    · rw [if_pos (by simpa using hm)]
      exact ih q h
    · rw [if_neg (by simpa using hm)]
      exact ih (q ++ [u]) (by simp [List.nodup_append, h, hm])

theorem processEntries_queue (net : Net) (limit : Nat) (es : List ListingEntry) :
    ∀ st : CrawlState, (processEntries net limit es st).queue = st.queue := by
  induction es with
  | nil => intro st; rfl
  | cons e rest ih =>
    intro st
    simp only [processEntries]
    split
    · rfl
    · split
      · exact ih st
      · split
        · exact ih _
        · rw [ih]
          split
          · rw [save_state_queue]
          · rfl

theorem crawl_loop_nodup (net : Net) (limit : Nat) :
    ∀ fuel : Nat, ∀ st : CrawlState, st.queue.Nodup →
      (crawl_loop net limit fuel st).queue.Nodup := by
  intro fuel
  induction fuel with
  | zero => intro st h; exact h
  | succ fuel ih =>
    intro st h
    simp only [crawl_loop]
    split
    · exact h
    · rename_i url rest hq
      split
      · exact h
      · have hrest : rest.Nodup := by
          rw [hq] at h
          exact (List.nodup_cons.mp h).2
        split
        · exact ih _ hrest
        · apply ih
          rw [processEntries_queue]
          exact enqueueNew_nodup _ _ hrest

/-- C2 counterexample: on a two-page listing cycle the home listing URL is
fetched twice within one session, because a dequeued URL can be
re-enqueued. -/
theorem c2_counterexample : (crawl netC2 [] 5 1 5).fetchLog.count homeUrl = 2 := by decide

/-- C2 amended: a discovered listing URL is never enqueued while it is still
in the queue, so the queue never holds duplicates; a URL that was already
dequeued and fetched may however be re-enqueued and fetched again. -/
theorem c2_amended_queue_nodup (net : Net) (loaded : List Document)
    (limit startPage fuel : Nat) :
    ((crawl net loaded limit startPage fuel).queue).Nodup := by
  apply crawl_loop_nodup
  apply enqueueNew_nodup
  split
  · exact List.nodup_singleton _
  · exact List.nodup_nil

/-- Witness for c2_amended_queue_nodup at a concrete run. -/
theorem c2_witness : ((crawl netNone [] 5 1 4).queue).Nodup :=
  c2_amended_queue_nodup netNone [] 5 1 4

theorem save_inv_accept (n0 : Nat) (st : CrawlState) (doc : Document) (u : Str)
    (h : SaveInv n0 st) :
    SaveInv n0
      (if (st.collected + 1) % 10 = 0 then
        save_state
          { st with
            tick := st.tick + 1,
            documents := st.documents ++ [doc],
            seen := st.seen ++ [u],
            collected := st.collected + 1 }
      else
        { st with
          tick := st.tick + 1,
          documents := st.documents ++ [doc],
          seen := st.seen ++ [u],
          collected := st.collected + 1 }) := by
  obtain ⟨hmod, hle, hdiff, hlen, hsnap⟩ := h
  have hlen' : (st.documents ++ [doc]).length = n0 + (st.collected + 1) := by
    simp [hlen]
    omega
  by_cases hten : (st.collected + 1) % 10 = 0
  · rw [if_pos hten]
    unfold save_state
    split
    · rename_i heq
      exact absurd heq (by simp)
    · refine ⟨hten, le_refl _, ?_, ?_, Or.inr ?_⟩
      · show st.collected + 1 - (st.collected + 1) ≤ 9
        omega
      · exact hlen'
      · show (st.writes ++ [st.documents ++ [doc]]).getLast? =
          some ((st.documents ++ [doc]).take (n0 + (st.collected + 1)))
        rw [List.getLast?_concat, ← hlen', List.take_length]
  · rw [if_neg hten]
    refine ⟨hmod, ?_, ?_, hlen', ?_⟩
    · show st.lastSave ≤ st.collected + 1
      omega
    · show st.collected + 1 - st.lastSave ≤ 9
      omega
    · rcases hsnap with h0 | hsnap
      · exact Or.inl h0
      · refine Or.inr ?_
        show st.writes.getLast? = some ((st.documents ++ [doc]).take (n0 + st.lastSave))
        rw [List.take_append_of_le_length (by omega)]
        exact hsnap

theorem processEntries_save (net : Net) (limit n0 : Nat) (es : List ListingEntry) :
    ∀ st : CrawlState, SaveInv n0 st → SaveInv n0 (processEntries net limit es st) := by
  induction es with
  | nil => intro st h; exact h
  | cons e rest ih =>
    intro st h
    simp only [processEntries]
    split
    · exact h
    · split
      · exact ih st h
      · split
        · apply ih
          obtain ⟨hmod, hle, hdiff, hlen, hsnap⟩ := h
          exact ⟨hmod, hle, hdiff, hlen, hsnap⟩
        · apply ih
          exact save_inv_accept n0 st _ _ h

theorem crawl_loop_save (net : Net) (limit n0 : Nat) :
    ∀ fuel : Nat, ∀ st : CrawlState, SaveInv n0 st →
      SaveInv n0 (crawl_loop net limit fuel st) := by
  intro fuel
  induction fuel with
  | zero => intro st h; exact h
  | succ fuel ih =>
    intro st h
    simp only [crawl_loop]
    split
    · exact h
    · split
      · exact h
      · split
        · apply ih
          obtain ⟨hmod, hle, hdiff, hlen, hsnap⟩ := h
          exact ⟨hmod, hle, hdiff, hlen, hsnap⟩
        · apply ih
          apply processEntries_save
          obtain ⟨hmod, hle, hdiff, hlen, hsnap⟩ := h
          exact ⟨hmod, hle, hdiff, hlen, hsnap⟩

/-- C9 counterexample: a crawl that terminates with nothing accumulated
performs no write at all, so the final rewrite is not unconditional. -/
theorem c9_counterexample :
    (main_run netNone [] 5 1 10).queue = [] ∧ (main_run netNone [] 5 1 10).writes = [] :=
  ⟨rfl, rfl⟩

/-- C9 amended: saves happen exactly at ten-document batch boundaries, at
most nine newly collected documents are ever unsaved, the latest written
snapshot holds every document up to the latest save, and the final save
rewrites the full set whenever it is non-empty (it is skipped when empty). -/
theorem c9_amended_checkpointing (net : Net) (loaded : List Document)
    (limit startPage fuel : Nat) :
    (crawl net loaded limit startPage fuel).lastSave % 10 = 0 ∧
    (crawl net loaded limit startPage fuel).collected -
        (crawl net loaded limit startPage fuel).lastSave ≤ 9 ∧
    ((crawl net loaded limit startPage fuel).lastSave = 0 ∨
      (crawl net loaded limit startPage fuel).writes.getLast? =
        some ((crawl net loaded limit startPage fuel).documents.take
          (loaded.length + (crawl net loaded limit startPage fuel).lastSave))) ∧
    ((main_run net loaded limit startPage fuel).documents = [] ∨
      (main_run net loaded limit startPage fuel).writes.getLast? =
        some (main_run net loaded limit startPage fuel).documents) := by
  have h : SaveInv loaded.length (crawl net loaded limit startPage fuel) :=
    crawl_loop_save net limit loaded.length fuel _
      ⟨rfl, Nat.le_refl 0, by simp, by simp, Or.inl rfl⟩
  obtain ⟨hmod, hle, hdiff, hlen, hsnap⟩ := h
  refine ⟨hmod, hdiff, hsnap, ?_⟩
  unfold main_run save_state
  split
  · rename_i heq
    exact Or.inl heq
  · exact Or.inr (by simp)

/-- Witness for c9_amended_checkpointing at a concrete run. -/
theorem c9_witness :
    (crawl netNone [] 5 1 2).lastSave % 10 = 0 ∧
    (crawl netNone [] 5 1 2).collected - (crawl netNone [] 5 1 2).lastSave ≤ 9 ∧
    ((crawl netNone [] 5 1 2).lastSave = 0 ∨
      (crawl netNone [] 5 1 2).writes.getLast? =
        some ((crawl netNone [] 5 1 2).documents.take
          ((List.length ([] : List Document)) + (crawl netNone [] 5 1 2).lastSave))) ∧
    ((main_run netNone [] 5 1 2).documents = [] ∨
      (main_run netNone [] 5 1 2).writes.getLast? =
        some (main_run netNone [] 5 1 2).documents) :=
  c9_amended_checkpointing netNone [] 5 1 2
